import Mathlib

/-!
Verification of `doc_processor.py`: a shallow Lean embedding of the
element-to-text flattener, the request validator, the job-status poller, the
bucket-emptying routine, the result-download routine, and the
`get_processed_doc` tool entry point, together with theorems settling the
frozen claims about the program.

External collaborators (S3, the Unstructured platform client, the local
filesystem) are modelled as oracles: each call's outcome (a value, or a
raised exception carried as a message string) is a field of a `World`
record, and the entry point is a function of that record which returns the
Python-level outcome (a returned string, or an uncaught exception) together
with the ordered trace of collaborator calls it made.
-/

namespace DocProc

/-- One element of the partitioned-document JSON, as the flattener reads it:
each of the three keys it accesses (`type`, `text`, `metadata`) may be absent
from the JSON object, hence the `Option` fields.  `metadata` is modelled as an
association list from string keys to string values (the code reads only the
`text_as_html` key, a string). -/
structure Element where
  type? : Option String
  text? : Option String
  metadata? : Option (List (String × String))
deriving DecidableEq

/-- Python's `str.strip()` with no argument: drop leading and trailing
whitespace characters.  Defined by structural recursion over the character
list so that it evaluates on concrete strings. -/
def pyStrip (s : String) : String :=
  String.mk (((s.toList.dropWhile Char.isWhitespace).reverse.dropWhile
    Char.isWhitespace).reverse)

/-- Python's `" ".join` / `sep.join`: the separator goes between consecutive
items only. -/
def joinWith (sep : String) : List String → String
  | [] => ""
  | [s] => s
  | s :: s2 :: rest => s ++ sep ++ joinWith sep (s2 :: rest)

/-- The loop body of `json_to_text` (src/doc_processor.py lines 343-362):
`text = element.get("text", "").strip()`, `element_type = element.get("type", "")`,
`metadata = element.get("metadata", {})`, then the if/elif chain appending one
segment per element. -/
def elementSegment (e : Element) : String :=
  let text := pyStrip (e.text?.getD "")
  let element_type := e.type?.getD ""
  let metadata := e.metadata?.getD []
  if element_type = "Title" then "<h1> " ++ text ++ "</h1><br>"
  else if element_type = "Header" then "<h2> " ++ text ++ "</h2><br/>"
  else if element_type = "NarrativeText" ∨ element_type = "UncategorizedText" then
    "<p>" ++ text ++ "</p>"
  else if element_type = "ListItem" then "<li>" ++ text ++ "</li>"
  else if element_type = "PageNumber" then "Page number: " ++ text
  else if element_type = "Table" then (metadata.lookup "text_as_html").getD ""
  else text

/-- `json_to_text` (src/doc_processor.py lines 337-364), after the JSON file
has been read into an element list: per-element segments, joined by a single
space (`" ".join(doc_texts)`). -/
def json_to_text (elements : List Element) : String :=
  joinWith " " (elements.map elementSegment)

/-- The seven type tags the if/elif chain of `json_to_text` recognizes. -/
def recognizedTypes : List String :=
  ["Title", "Header", "NarrativeText", "UncategorizedText", "ListItem",
   "PageNumber", "Table"]

/-- Python's `os.path.basename` for POSIX paths: everything after the last
slash.  Defined by structural recursion over the character list so that it
evaluates on concrete strings. -/
def os_path_basename (p : String) : String :=
  String.mk ((p.toList.reverse.takeWhile (fun c => c ≠ '/')).reverse)

/-- Python's `str.lower()` (the extensions compared are ASCII). -/
def pyLower (s : String) : String :=
  String.mk (s.toList.map Char.toLower)

/-- The extension part of Python's `os.path.splitext` for POSIX paths: the
basename's suffix from its last dot, where leading dots of the basename never
start an extension (`".bashrc"` has none). -/
def splitext_ext (p : String) : String :=
  let base := (os_path_basename p).toList
  let lead := base.takeWhile (fun c => c = '.')
  let rest := base.drop lead.length
  if rest.contains '.' then
    let extRev := rest.reverse.takeWhile (fun c => c ≠ '.')
    String.mk ('.' :: extRev.reverse)
  else ""

/-- The `supported_extensions` set of `get_processed_doc`
(src/doc_processor.py lines 379-385), verbatim. -/
def supported_extensions : List String :=
  [".abw", ".bmp", ".csv", ".cwk", ".dbf", ".dif", ".doc", ".docm", ".docx",
   ".dot", ".dotm", ".eml", ".epub", ".et", ".eth", ".fods", ".gif", ".heic",
   ".htm", ".html", ".hwp", ".jpeg", ".jpg", ".md", ".mcw", ".mw", ".odt",
   ".org", ".p7s", ".pages", ".pbd", ".pdf", ".png", ".pot", ".potm", ".ppt",
   ".pptm", ".pptx", ".prn", ".rst", ".rtf", ".sdp", ".sgl", ".svg", ".sxg",
   ".tiff", ".txt", ".tsv", ".uof", ".uos1", ".uos2", ".web", ".webp", ".wk2",
   ".xls", ".xlsb", ".xlsm", ".xlsx", ".xlw", ".xml", ".zabw"]

/-- Python's `os.path.join` for two POSIX components. -/
def os_path_join (a b : String) : String :=
  if b.startsWith "/" then b
  else if a = "" ∨ a.endsWith "/" then a ++ b
  else a ++ "/" ++ b

/-- `download_s3_file` (src/doc_processor.py lines 81-123).  The body's two
`os.makedirs` calls and the `download_file` call are oracles (each succeeds or
raises with a message); the surrounding `try/except Exception` catches every
failure and returns `None`, so the model returns `Option String`: the local
path on success, `none` on any failure. -/
def download_s3_file (mkdirs1 mkdirs2 dl : Except String Unit)
    (file_name local_dir : String) : Option String :=
  let file_key := file_name ++ ".json"
  let local_file_path := os_path_join local_dir (os_path_basename file_key)
  match mkdirs1 with
  | .error _ => none
  | .ok _ =>
  match mkdirs2 with
  | .error _ => none
  | .ok _ =>
  match dl with
  | .error _ => none
  | .ok _ => some local_file_path

/-- Is a job status one the poll loop keeps polling on
(src/doc_processor.py lines 252-257)? -/
def pollActive (s : String) : Bool :=
  s = "SCHEDULED" || s = "IN_PROGRESS"

/-- One observable action of the poll loop: a `get_job` query returning the
given status, or a `time.sleep` of the given number of seconds. -/
inductive PollEvent
  | getJob (status : String)
  | sleep (seconds : Nat)
deriving DecidableEq

/-- `poll_job_status` (src/doc_processor.py lines 243-262) over a pure status
oracle `status : Nat → String` (the status the i-th `get_job` call reports),
with fuel bounding the number of iterations the model unrolls: `none` means
the loop did not stop within `fuel` queries.  On stopping it returns the
ordered event trace (each query of an active status is followed by a 10-second
sleep) and the final status, which the code treats as terminal whether it
denotes success or failure. -/
def poll_job_status (status : Nat → String) : Nat → Nat → Option (List PollEvent × String)
  | _, 0 => none
  | i, fuel + 1 =>
    let s := status i
    if pollActive s then
      match poll_job_status status (i + 1) fuel with
      | none => none
      | some (evs, r) => some (.getJob s :: .sleep 10 :: evs, r)
    else
      some ([.getJob s], s)

/-- The page of keys `list_objects_v2` reports from a bucket holding `keys`,
starting at continuation position `start`: at most 1000 keys per page. -/
def listPage (keys : List String) (start : Nat) : List String :=
  (keys.drop start).take 1000

/-- The `while response['IsTruncated']` pagination loop of `empty_s3_bucket`
together with the first page's deletions: deletes `listPage keys start` and
every later page, accumulating the deleted keys in order. -/
def emptyPages (keys : List String) (start : Nat) : List String :=
  if _h : start + 1000 < keys.length then
    listPage keys start ++ emptyPages keys (start + 1000)
  else
    listPage keys start
termination_by keys.length - start
decreasing_by omega

/-- `empty_s3_bucket` (src/doc_processor.py lines 290-334) over a bucket
holding `keys`: an empty first listing has no `Contents` and the function
returns `[]`; otherwise every listed page is deleted object by object,
following continuation tokens while the listing is truncated, and the list of
deleted keys is returned. -/
def empty_s3_bucket (keys : List String) : List String :=
  if keys.isEmpty then [] else emptyPages keys 0

/-- The outcome of the `upload_file` call inside `upload_to_s3`
(src/doc_processor.py lines 73-78): success; a `ClientError`, which
`upload_to_s3` catches and logs; or any other exception, which propagates out
of `upload_to_s3`. -/
inductive UploadOutcome
  | ok
  | clientError (msg : String)
  | raised (msg : String)
deriving DecidableEq

/-- Does the upload outcome escape `upload_to_s3` uncaught? -/
def UploadOutcome.uncaught : UploadOutcome → Bool
  | .raised _ => true
  | _ => false

/-- A collaborator call `get_processed_doc` can make, for the call trace. -/
inductive Call
  | uploadFile
  | createSource
  | createDestination
  | createWorkflow
  | runWorkflow
  | listJobs
  | getJob
  | downloadFile
  | deleteWorkflow
  | deleteSource
  | deleteDestination
  | emptySourceBucket
  | emptyDestinationBucket
deriving DecidableEq

/-- The outcome of one invocation of the Python entry point: it returned a
string, or an exception escaped it uncaught. -/
inductive PyOutcome
  | returned (s : String)
  | raised (msg : String)
deriving DecidableEq

/-- The environment of one `get_processed_doc` invocation: the outcome of each
collaborator call it can make, in program order.  `Except.error m` stands for
the call raising an exception with message `m`.  `downloadedElements` is the
element list the result file holds when the download succeeded;
`staleResultFile` is what (if anything) already sits at the local result path
when the download failed. -/
structure World where
  fileExists : Bool
  upload : UploadOutcome
  createSource : Except String String
  createDestination : Except String String
  createWorkflow : Except String String
  runWorkflow : Except String Unit
  listJobs : Except String (List String)
  getJob : Nat → Except String String
  download : Except String Unit
  deleteWorkflowRes : Except String Unit
  deleteSourceRes : Except String Unit
  deleteDestinationRes : Except String Unit
  emptySourceRes : Except String (List String)
  emptyDestinationRes : Except String (List String)
  downloadedElements : List Element
  staleResultFile : Option (List Element)

/-- The result of the poll loop as run inside `get_processed_doc`: the
terminal status with the number of `get_job` calls made, an exception raised
by a `get_job` call (which escapes, nothing catches it), or fuel exhaustion
(the loop still running). -/
inductive JobPollResult
  | finished (status : String) (queries : Nat)
  | raisedExn (msg : String) (queries : Nat)
  | fuelOut
deriving DecidableEq

/-- The `while True` loop of `poll_job_status` with a fallible `get_job`
oracle, as `get_processed_doc` runs it: `i` counts the queries already made. -/
def pollRun (getJob : Nat → Except String String) : Nat → Nat → JobPollResult
  | _, 0 => .fuelOut
  | i, fuel + 1 =>
    match getJob i with
    | .error m => .raisedExn m (i + 1)
    | .ok s => if pollActive s then pollRun getJob (i + 1) fuel else .finished s (i + 1)

/-- The content of the local result file when `json_to_text` opens it: the
downloaded elements if the download succeeded, else whatever stale file was
already there. -/
def resultFile (w : World) : Option (List Element) :=
  match w.download with
  | .ok _ => some w.downloadedElements
  | .error _ => w.staleResultFile

/-- What the tail of `get_processed_doc` produces once teardown is done:
`json_to_text` flattens the result file, or raises `FileNotFoundError` when no
file is at the result path (download failed and nothing stale is there). -/
def finalOutcome (w : World) : PyOutcome :=
  match resultFile w with
  | some els => .returned (json_to_text els)
  | none => .raised "FileNotFoundError"

/-- The calls made up to and including `list_jobs`. -/
def preJobsTrace : List Call :=
  [.uploadFile, .createSource, .createDestination, .createWorkflow,
   .runWorkflow, .listJobs]

/-- The full call trace of a run that reaches the end of the function, with
`n` `get_job` queries. -/
def fullTrace (n : Nat) : List Call :=
  preJobsTrace ++ List.replicate n Call.getJob ++
    [.downloadFile, .deleteWorkflow, .deleteSource, .deleteDestination,
     .emptySourceBucket, .emptyDestinationBucket]

/-- The five teardown calls of `get_processed_doc`. -/
def teardownCalls : List Call :=
  [.deleteWorkflow, .deleteSource, .deleteDestination, .emptySourceBucket,
   .emptyDestinationBucket]

/-- `get_processed_doc` (src/doc_processor.py lines 366-440) over the oracle
world `w`: validation (file existence, then lower-cased extension against the
allow-list), upload (`ClientError` caught inside `upload_to_s3`), connector
and workflow creation, run, `list_jobs` with `[0]` indexing (an empty job list
raises `IndexError`), the poll loop (fuel-bounded here; `none` means the loop
was still running), the result download (its failure caught, its `None` return
value ignored by the code), the three deletions and two bucket-emptyings
(unguarded: a raise escapes), and finally `json_to_text` on the local result
path.  Returns the Python outcome and the ordered collaborator-call trace;
a call that raises is in the trace (it was made). -/
def get_processed_doc (w : World) (filepath : String) (fuel : Nat) :
    Option (PyOutcome × List Call) :=
  if w.fileExists = false then
    some (.returned "File does not exist", [])
  else if (supported_extensions.contains (pyLower (splitext_ext filepath))) = false then
    some (.returned "File extension not supported by Unstructured Platform", [])
  else
    match w.upload with
    | .raised m => some (.raised m, [.uploadFile])
    | _ =>
    match w.createSource with
    | .error m => some (.raised m, [.uploadFile, .createSource])
    | .ok _ =>
    match w.createDestination with
    | .error m => some (.raised m, [.uploadFile, .createSource, .createDestination])
    | .ok _ =>
    match w.createWorkflow with
    | .error m =>
        some (.raised m, [.uploadFile, .createSource, .createDestination, .createWorkflow])
    | .ok _ =>
    match w.runWorkflow with
    | .error m =>
        some (.raised m,
          [.uploadFile, .createSource, .createDestination, .createWorkflow, .runWorkflow])
    | .ok _ =>
    match w.listJobs with
    | .error m => some (.raised m, preJobsTrace)
    | .ok jobs =>
    match jobs with
    | [] => some (.raised "IndexError: list index out of range", preJobsTrace)
    | _ :: _ =>
    match pollRun w.getJob 0 fuel with
    | .fuelOut => none
    | .raisedExn m n => some (.raised m, preJobsTrace ++ List.replicate n Call.getJob)
    | .finished _ n =>
      match w.deleteWorkflowRes with
      | .error m =>
          some (.raised m, preJobsTrace ++ List.replicate n Call.getJob ++
            [.downloadFile, .deleteWorkflow])
      | .ok _ =>
      match w.deleteSourceRes with
      | .error m =>
          some (.raised m, preJobsTrace ++ List.replicate n Call.getJob ++
            [.downloadFile, .deleteWorkflow, .deleteSource])
      | .ok _ =>
      match w.deleteDestinationRes with
      | .error m =>
          some (.raised m, preJobsTrace ++ List.replicate n Call.getJob ++
            [.downloadFile, .deleteWorkflow, .deleteSource, .deleteDestination])
      | .ok _ =>
      match w.emptySourceRes with
      | .error m =>
          some (.raised m, preJobsTrace ++ List.replicate n Call.getJob ++
            [.downloadFile, .deleteWorkflow, .deleteSource, .deleteDestination,
             .emptySourceBucket])
      | .ok _ =>
      match w.emptyDestinationRes with
      | .error m =>
          some (.raised m, preJobsTrace ++ List.replicate n Call.getJob ++
            [.downloadFile, .deleteWorkflow, .deleteSource, .deleteDestination,
             .emptySourceBucket, .emptyDestinationBucket])
      | .ok _ =>
      some (finalOutcome w, fullTrace n)

/-- A run in which every collaborator call succeeds: the job completes after
one `get_job` query, the result file downloads and holds an empty element
list. -/
def wOk : World :=
  { fileExists := true
    upload := .ok
    createSource := .ok "src-id"
    createDestination := .ok "dst-id"
    createWorkflow := .ok "wf-id"
    runWorkflow := .ok ()
    listJobs := .ok ["job-1"]
    getJob := fun _ => .ok "COMPLETED"
    download := .ok ()
    deleteWorkflowRes := .ok ()
    deleteSourceRes := .ok ()
    deleteDestinationRes := .ok ()
    emptySourceRes := .ok ["doc.pdf"]
    emptyDestinationRes := .ok ["doc.pdf.json"]
    downloadedElements := []
    staleResultFile := none }

/-- A run identical to `wOk` except that the source-connector creation call
raises. -/
def wConnFail : World := { wOk with createSource := .error "ConnectionError" }

/-- A run identical to `wOk` except that the workflow-deletion call during
cleanup raises. -/
def wDeleteFail : World := { wOk with deleteWorkflowRes := .error "AccessDenied" }

/-- A run identical to `wOk` except that the result download fails (and no
stale result file exists locally). -/
def wDownloadFail : World :=
  { wOk with download := .error "404 Not Found", staleResultFile := none }

/-- The call trace of the `wDeleteFail` run: the raising workflow-deletion
call is the last call made — the remaining teardown never runs. -/
def wDeleteFailTrace : List Call :=
  [.uploadFile, .createSource, .createDestination, .createWorkflow, .runWorkflow,
   .listJobs, .getJob, .downloadFile, .deleteWorkflow]

/-- C1: the flattener maps each element to its segment by type exactly as
specified, with the element's text stripped of leading/trailing whitespace
before wrapping — Title, Header, NarrativeText, UncategorizedText, ListItem,
PageNumber as tagged text, Table as the metadata `text_as_html` value (text
ignored) — and the two-element Title/NarrativeText example flattens to
`<h1> Intro</h1><br> <p>Hello world</p>`. -/
theorem json_to_text_per_type (tx : String) (md : List (String × String)) :
    json_to_text [⟨some "Title", some tx, some md⟩] = "<h1> " ++ pyStrip tx ++ "</h1><br>" ∧
    json_to_text [⟨some "Header", some tx, some md⟩] = "<h2> " ++ pyStrip tx ++ "</h2><br/>" ∧
    json_to_text [⟨some "NarrativeText", some tx, some md⟩] = "<p>" ++ pyStrip tx ++ "</p>" ∧
    json_to_text [⟨some "UncategorizedText", some tx, some md⟩] = "<p>" ++ pyStrip tx ++ "</p>" ∧
    json_to_text [⟨some "ListItem", some tx, some md⟩] = "<li>" ++ pyStrip tx ++ "</li>" ∧
    json_to_text [⟨some "PageNumber", some tx, some md⟩] = "Page number: " ++ pyStrip tx ∧
    json_to_text [⟨some "Table", some tx, some md⟩] = (md.lookup "text_as_html").getD "" ∧
    json_to_text [⟨some "Title", some "Intro", none⟩,
                  ⟨some "NarrativeText", some "Hello world", none⟩] =
      "<h1> Intro</h1><br> <p>Hello world</p>" :=
  ⟨rfl, rfl, rfl, rfl, rfl, rfl, rfl, rfl⟩

/-- C2: the flattener's output is the per-element segments in exactly the
input order, joined by a single space between consecutive segments: it maps
the empty list to the empty string, a singleton to its segment, and a
non-trivial list to the head's segment, a space, and the flattening of the
tail — which fixes the output as the ordered space-joined segments with no
reordering, grouping, or deduplication. -/
theorem json_to_text_order :
    json_to_text [] = "" ∧
    (∀ e, json_to_text [e] = elementSegment e) ∧
    (∀ e es, es ≠ [] →
      json_to_text (e :: es) = elementSegment e ++ " " ++ json_to_text es) := by
  refine ⟨rfl, fun e => rfl, fun e es h => ?_⟩
  cases es with
  | nil => exact absurd rfl h
  | cons b t => rfl

/-- C3: the flattener is a total Lean function on element lists (so it is
deterministic and never fails by construction); an element whose type is not
one of the seven recognized tags contributes its raw stripped text unchanged,
and a Table element whose metadata lacks the `text_as_html` key contributes an
empty segment rather than an error. -/
theorem json_to_text_total :
    (∀ e : Element, (e.type?.getD "") ∉ recognizedTypes →
        elementSegment e = pyStrip (e.text?.getD "")) ∧
    (∀ e : Element, e.type?.getD "" = "Table" →
        (e.metadata?.getD []).lookup "text_as_html" = none →
        elementSegment e = "") := by
  constructor
  · intro e h
    simp only [recognizedTypes, List.mem_cons, List.not_mem_nil, or_false, not_or] at h
    obtain ⟨h1, h2, h3, h4, h5, h6, h7⟩ := h
    simp [elementSegment, h1, h2, h3, h4, h5, h6, h7]
  · intro e ht hm
    simp [elementSegment, ht, hm]

/-- C10: a missing `text` key is treated as the empty string, a missing
`metadata` key as an empty mapping, and a missing `type` key as the
empty-string type, which falls through to the default branch so the element
contributes its stripped text — the empty string when text is also missing.
No missing key makes the flattener fail (it is a total function). -/
theorem elementSegment_missing_keys :
    (∀ e : Element, e.text? = none →
        elementSegment e = elementSegment { e with text? := some "" }) ∧
    (∀ e : Element, e.metadata? = none →
        elementSegment e = elementSegment { e with metadata? := some [] }) ∧
    (∀ e : Element, e.type? = none →
        elementSegment e = elementSegment { e with type? := some "" }) ∧
    (∀ e : Element, e.type? = none → elementSegment e = pyStrip (e.text?.getD "")) ∧
    elementSegment ⟨none, none, none⟩ = "" := by
  refine ⟨fun e h => ?_, fun e h => ?_, fun e h => ?_, fun e h => ?_, rfl⟩
  · simp [elementSegment, h]
  · simp [elementSegment, h]
  · simp [elementSegment, h]
  · simp [elementSegment, h]

/-- C4: the entry point validates in order before making any remote call — a
missing file returns the plain missing-file string with an empty call trace
(whatever the extension), an existing file with an unsupported lower-cased
extension returns the plain unsupported-extension string with an empty call
trace; `.PDF` lower-cases into the allow-list and `.exe` does not. -/
theorem get_processed_doc_validation (w : World) (p : String) (fuel : Nat) :
    (w.fileExists = false →
      get_processed_doc w p fuel = some (.returned "File does not exist", [])) ∧
    (w.fileExists = true →
      supported_extensions.contains (pyLower (splitext_ext p)) = false →
      get_processed_doc w p fuel =
        some (.returned "File extension not supported by Unstructured Platform", [])) ∧
    supported_extensions.contains (pyLower (splitext_ext "report.PDF")) = true ∧
    supported_extensions.contains (pyLower (splitext_ext "malware.exe")) = false := by
  refine ⟨fun h => ?_, fun h1 h2 => ?_, rfl, rfl⟩
  · unfold get_processed_doc
    rw [h]
    simp
  · unfold get_processed_doc
    rw [h1, h2]
    simp

/-- Soundness of the poll loop, for any starting query index: a run that
stops returns the status at the first non-active index, having queried every
earlier (active) status and slept 10 seconds after each active query. -/
theorem poll_aux_sound (status : Nat → String) :
    ∀ fuel i evs r, poll_job_status status i fuel = some (evs, r) →
      ∃ k, r = status (i + k) ∧ pollActive (status (i + k)) = false ∧
        (∀ j, j < k → pollActive (status (i + j)) = true) ∧
        evs = ((List.range k).map
            (fun j => [PollEvent.getJob (status (i + j)), PollEvent.sleep 10])).flatten
          ++ [PollEvent.getJob (status (i + k))] := by
  intro fuel
  induction fuel with
  | zero => intro i evs r h; exact absurd h (by simp [poll_job_status])
  | succ fuel ih =>
    intro i evs r h
    rw [poll_job_status] at h
    by_cases hA : pollActive (status i) = true
    · rw [if_pos hA] at h
      cases hrec : poll_job_status status (i + 1) fuel with
      | none => rw [hrec] at h; exact absurd h (by simp)
      | some p =>
        obtain ⟨evs', r'⟩ := p
        rw [hrec] at h
        obtain ⟨k', hr', hterm', hact', hevs'⟩ := ih (i + 1) evs' r' hrec
        simp only [Option.some.injEq, Prod.mk.injEq] at h
        obtain ⟨hevs, hr⟩ := h
        refine ⟨k' + 1, ?_, ?_, ?_, ?_⟩
        · rw [← hr, hr']; congr 1; omega
        · rw [show i + (k' + 1) = i + 1 + k' from by omega]; exact hterm'
        · intro j hj
          cases j with
          | zero => simpa using hA
          | succ j' =>
            rw [show i + (j' + 1) = i + 1 + j' from by omega]
            exact hact' j' (by omega)
        · rw [← hevs, hevs', List.range_succ_eq_map, List.map_cons, List.flatten_cons,
            List.map_map]
          have hcomp : ((fun j => [PollEvent.getJob (status (i + j)), PollEvent.sleep 10])
                ∘ Nat.succ)
              = fun j => [PollEvent.getJob (status (i + 1 + j)), PollEvent.sleep 10] := by
            funext j
            simp only [Function.comp_apply]
            rw [show i + Nat.succ j = i + 1 + j from by omega]
          rw [hcomp, show i + (k' + 1) = i + 1 + k' from by omega]
          simp
    · rw [if_neg hA] at h
      simp only [Option.some.injEq, Prod.mk.injEq] at h
      obtain ⟨hevs, hr⟩ := h
      refine ⟨0, ?_, ?_, ?_, ?_⟩
      · rw [← hr]; congr 1
      · simpa using (Bool.not_eq_true _).mp hA
      · intro j hj; omega
      · rw [← hevs]; simp

/-- Completeness of the poll loop, for any starting query index: as soon as
some status in the sequence is non-active, the loop stops within that many
queries. -/
theorem poll_aux_complete (status : Nat → String) :
    ∀ k i, pollActive (status (i + k)) = false →
      ∃ evs r, poll_job_status status i (k + 1) = some (evs, r) := by
  intro k
  induction k with
  | zero =>
    intro i h
    rw [poll_job_status]
    rw [if_neg (by simpa using h)]
    exact ⟨_, _, rfl⟩
  | succ k' ih =>
    intro i h
    rw [poll_job_status]
    by_cases hA : pollActive (status i) = true
    · rw [if_pos hA]
      obtain ⟨evs, r, hrec⟩ :=
        ih (i + 1) (by rw [show i + 1 + k' = i + (k' + 1) from by omega]; exact h)
      rw [hrec]
      exact ⟨_, _, rfl⟩
    · rw [if_neg hA]
      exact ⟨_, _, rfl⟩

/-- C7: the poller re-queries on a fixed 10-second sleep exactly while the
reported status is SCHEDULED or IN_PROGRESS, stops on the first status that
is neither (whatever that status is — success and failure alike), and has no
timeout or retry bound: for every status sequence, some finite unrolling of
the loop stops if and only if some status in the sequence is non-active, and
a stopped run returns the first non-active status after querying each earlier
status and sleeping exactly 10 seconds after each of those queries. -/
theorem poll_job_status_loop (status : Nat → String) :
    ((∃ fuel r, poll_job_status status 0 fuel = some r) ↔
      ∃ k, pollActive (status k) = false) ∧
    (∀ fuel evs r, poll_job_status status 0 fuel = some (evs, r) →
      pollActive r = false ∧
      ∃ k, r = status k ∧ (∀ j, j < k → pollActive (status j) = true) ∧
        evs = ((List.range k).map
            (fun j => [PollEvent.getJob (status j), PollEvent.sleep 10])).flatten
          ++ [PollEvent.getJob (status k)]) := by
  constructor
  · constructor
    · rintro ⟨fuel, ⟨evs, r⟩, h⟩
      obtain ⟨k, _, hterm, _, _⟩ := poll_aux_sound status fuel 0 evs r h
      exact ⟨k, by simpa using hterm⟩
    · rintro ⟨k, hk⟩
      obtain ⟨evs, r, h⟩ := poll_aux_complete status k 0 (by simpa using hk)
      exact ⟨k + 1, (evs, r), h⟩
  · intro fuel evs r h
    obtain ⟨k, hr, hterm, hact, hevs⟩ := poll_aux_sound status fuel 0 evs r h
    simp only [Nat.zero_add] at hr hterm hact hevs
    exact ⟨by rw [hr]; exact hterm, k, hr, hact, hevs⟩

/-- The pagination loop deletes exactly the keys from `start` on. -/
theorem emptyPages_eq (keys : List String) (start : Nat) :
    emptyPages keys start = keys.drop start := by
  rw [emptyPages]
  split
  next h =>
    rw [emptyPages_eq keys (start + 1000)]
    have h2 : (keys.drop start).drop 1000 = keys.drop (start + 1000) := by
      rw [List.drop_drop]
    rw [← h2, listPage]
    exact List.take_append_drop 1000 (keys.drop start)
  next h =>
    rw [listPage]
    apply List.take_of_length_le
    simp only [List.length_drop]
    omega
termination_by keys.length - start
decreasing_by simp_wf; omega

/-- C8: for every bucket state, the bucket-emptying operation deletes every
object in the bucket — following continuation tokens across pages of at most
1000 keys until the listing is no longer truncated — and returns exactly the
ordered list of keys it deleted; on an empty bucket it deletes nothing and
returns the empty list. -/
theorem empty_s3_bucket_deletes_all (keys : List String) :
    empty_s3_bucket keys = keys ∧
    (∀ k, k ∈ keys → k ∈ empty_s3_bucket keys) ∧
    empty_s3_bucket [] = [] := by
  have h : empty_s3_bucket keys = keys := by
    unfold empty_s3_bucket
    split
    next hk => simp only [List.isEmpty_iff] at hk; rw [hk]
    next hk => rw [emptyPages_eq, List.drop_zero]
  exact ⟨h, fun k hk => by rw [h]; exact hk, rfl⟩

/-- C9: the result-download routine never raises — it returns the local path
of the downloaded file when the directory creations and the S3 download all
succeed, and catches the exception and returns `None` when any of them fails
— and in the entry point the teardown step that follows the download is
invoked whenever the download call was, regardless of the download's
outcome. -/
theorem download_s3_file_never_raises (m1 m2 dl : Except String Unit) (fn ld : String) :
    (download_s3_file m1 m2 dl fn ld = none ∨
      download_s3_file m1 m2 dl fn ld =
        some (os_path_join ld (os_path_basename (fn ++ ".json")))) ∧
    (m1 = .ok () → m2 = .ok () → dl = .ok () →
      download_s3_file m1 m2 dl fn ld =
        some (os_path_join ld (os_path_basename (fn ++ ".json")))) ∧
    ((∃ e, m1 = .error e ∨ m2 = .error e ∨ dl = .error e) →
      download_s3_file m1 m2 dl fn ld = none) ∧
    (∀ w p fuel r, get_processed_doc w p fuel = some r →
      Call.downloadFile ∈ r.2 → Call.deleteWorkflow ∈ r.2) := by
  refine ⟨?_, ?_, ?_, ?_⟩
  · cases m1 <;> cases m2 <;> cases dl <;> simp [download_s3_file]
  · intro h1 h2 h3; rw [h1, h2, h3]; rfl
  · rintro ⟨e, he⟩
    rcases he with he | he | he <;> rw [he] <;> cases m1 <;> cases m2 <;>
      simp [download_s3_file]
  · intro w p fuel r h hd
    unfold get_processed_doc at h
    repeat' split at h
    all_goals cases h
    all_goals simp_all [preJobsTrace, fullTrace, List.mem_replicate]

/-- The happy path of the entry point: when validation passes and every call
the code leaves unguarded succeeds (the upload may fail only with a caught
`ClientError`, the job list is nonempty, the poll loop stops), the run makes
the full call sequence and ends with `finalOutcome` — no assumption is made
about the download outcome, whose failure the code catches and ignores. -/
theorem get_processed_doc_run_ok (w : World) (p : String) (fuel : Nat)
    (sid did wid j st : String) (js ks kd : List String) (n : Nat)
    (hfe : w.fileExists = true)
    (hext : supported_extensions.contains (pyLower (splitext_ext p)) = true)
    (hup : w.upload.uncaught = false)
    (hcs : w.createSource = .ok sid)
    (hcd : w.createDestination = .ok did)
    (hcw : w.createWorkflow = .ok wid)
    (hrw : w.runWorkflow = .ok ())
    (hlj : w.listJobs = .ok (j :: js))
    (hpoll : pollRun w.getJob 0 fuel = .finished st n)
    (hdw : w.deleteWorkflowRes = .ok ())
    (hds : w.deleteSourceRes = .ok ())
    (hdd : w.deleteDestinationRes = .ok ())
    (hes : w.emptySourceRes = .ok ks)
    (hed : w.emptyDestinationRes = .ok kd) :
    get_processed_doc w p fuel = some (finalOutcome w, fullTrace n) := by
  cases hu : w.upload with
  | raised m => rw [hu] at hup; simp [UploadOutcome.uncaught] at hup
  | ok =>
    unfold get_processed_doc
    rw [hfe, hext, hu, hcs, hcd, hcw, hrw, hlj, hpoll, hdw, hds, hdd, hes, hed]
    simp
  | clientError m =>
    unfold get_processed_doc
    rw [hfe, hext, hu, hcs, hcd, hcw, hrw, hlj, hpoll, hdw, hds, hdd, hes, hed]
    simp

/-- C5 counterexample: validation passes, the upload succeeds, and the
source-connector creation call raises — the exception escapes
`get_processed_doc` uncaught instead of being converted to a string, so the
entry point does not return a string for every collaborator outcome. -/
theorem get_processed_doc_uncaught_exception :
    get_processed_doc wConnFail "doc.pdf" 1 =
      some (.raised "ConnectionError", [.uploadFile, .createSource]) := rfl

/-- C5 amended: the entry point returns a string when the file exists with a
supported extension and every collaborator call the code leaves unguarded
succeeds — upload not raising outside the caught `ClientError`, connector and
workflow creation, run, a nonempty job listing, a poll loop that reaches a
terminal status, the three deletions and two bucket-emptyings — and the local
result file is readable; the string is the flattened text.  (Only the upload
and the download are guarded by the code; an exception from any other
collaborator call escapes uncaught, as the counterexample shows.) -/
theorem get_processed_doc_string_when_calls_succeed (w : World) (p : String)
    (fuel : Nat) (sid did wid j st : String) (js ks kd : List String) (n : Nat)
    (els : List Element)
    (hfe : w.fileExists = true)
    (hext : supported_extensions.contains (pyLower (splitext_ext p)) = true)
    (hup : w.upload.uncaught = false)
    (hcs : w.createSource = .ok sid)
    (hcd : w.createDestination = .ok did)
    (hcw : w.createWorkflow = .ok wid)
    (hrw : w.runWorkflow = .ok ())
    (hlj : w.listJobs = .ok (j :: js))
    (hpoll : pollRun w.getJob 0 fuel = .finished st n)
    (hdw : w.deleteWorkflowRes = .ok ())
    (hds : w.deleteSourceRes = .ok ())
    (hdd : w.deleteDestinationRes = .ok ())
    (hes : w.emptySourceRes = .ok ks)
    (hed : w.emptyDestinationRes = .ok kd)
    (hrf : resultFile w = some els) :
    get_processed_doc w p fuel =
      some (.returned (json_to_text els), fullTrace n) := by
  rw [get_processed_doc_run_ok w p fuel sid did wid j st js ks kd n hfe hext hup
    hcs hcd hcw hrw hlj hpoll hdw hds hdd hes hed]
  unfold finalOutcome
  rw [hrf]

/-- C5 witness: on the all-successful run `wOk` the entry point returns the
flattened text of the (empty) downloaded element list. -/
theorem get_processed_doc_string_witness :
    get_processed_doc wOk "doc.pdf" 1 =
      some (.returned (json_to_text []), fullTrace 1) :=
  get_processed_doc_string_when_calls_succeed wOk "doc.pdf" 1 "src-id" "dst-id"
    "wf-id" "job-1" "COMPLETED" [] ["doc.pdf"] ["doc.pdf.json"] 1 [] rfl rfl rfl
    rfl rfl rfl rfl rfl rfl rfl rfl rfl rfl rfl rfl

/-- C6 counterexample: on a run where every call succeeds except the
workflow-deletion call during cleanup, the exception escapes and replaces the
already-obtained primary result, and the source-connector deletion, the
destination-connector deletion and both bucket-emptyings are never invoked —
the connectors created for the request outlive it. -/
theorem get_processed_doc_teardown_failure_masks :
    get_processed_doc wDeleteFail "doc.pdf" 1 =
      some (.raised "AccessDenied", wDeleteFailTrace) ∧
    Call.deleteSource ∉ wDeleteFailTrace ∧
    Call.deleteDestination ∉ wDeleteFailTrace ∧
    Call.emptySourceBucket ∉ wDeleteFailTrace ∧
    Call.emptyDestinationBucket ∉ wDeleteFailTrace :=
  ⟨rfl, by decide, by decide, by decide, by decide⟩

/-- C6 amended: when the calls before teardown succeed and the five teardown
calls themselves succeed, the workflow deletion, source- and
destination-connector deletions and both bucket-emptyings are all invoked
before the entry point returns, regardless of whether the result download
succeeded or failed (no hypothesis constrains the download outcome); but
teardown is not exception-safe — a failing deletion call propagates, skips
the remaining deletions, and overrides the primary result, as the
counterexample shows. -/
theorem get_processed_doc_teardown_complete (w : World) (p : String)
    (fuel : Nat) (sid did wid j st : String) (js ks kd : List String) (n : Nat)
    (hfe : w.fileExists = true)
    (hext : supported_extensions.contains (pyLower (splitext_ext p)) = true)
    (hup : w.upload.uncaught = false)
    (hcs : w.createSource = .ok sid)
    (hcd : w.createDestination = .ok did)
    (hcw : w.createWorkflow = .ok wid)
    (hrw : w.runWorkflow = .ok ())
    (hlj : w.listJobs = .ok (j :: js))
    (hpoll : pollRun w.getJob 0 fuel = .finished st n)
    (hdw : w.deleteWorkflowRes = .ok ())
    (hds : w.deleteSourceRes = .ok ())
    (hdd : w.deleteDestinationRes = .ok ())
    (hes : w.emptySourceRes = .ok ks)
    (hed : w.emptyDestinationRes = .ok kd) :
    get_processed_doc w p fuel = some (finalOutcome w, fullTrace n) ∧
    (∀ c, c ∈ teardownCalls → c ∈ fullTrace n) := by
  refine ⟨get_processed_doc_run_ok w p fuel sid did wid j st js ks kd n hfe hext
    hup hcs hcd hcw hrw hlj hpoll hdw hds hdd hes hed, ?_⟩
  intro c hc
  fin_cases hc <;> simp [fullTrace, preJobsTrace]

/-- C6 witness: on the run `wDownloadFail`, whose download fails, the full
teardown still runs (and the final outcome is the uncaught
`FileNotFoundError` from reading the absent result file). -/
theorem get_processed_doc_teardown_witness :
    get_processed_doc wDownloadFail "doc.pdf" 1 =
      some (finalOutcome wDownloadFail, fullTrace 1) ∧
    (∀ c, c ∈ teardownCalls → c ∈ fullTrace 1) :=
  get_processed_doc_teardown_complete wDownloadFail "doc.pdf" 1 "src-id" "dst-id"
    "wf-id" "job-1" "COMPLETED" [] ["doc.pdf"] ["doc.pdf.json"] 1 rfl rfl rfl rfl
    rfl rfl rfl rfl rfl rfl rfl rfl rfl rfl

end DocProc
